import Mathlib

/-!
Verification of the assessment-session / video-analysis backend
(`app/services/assessment_service.py`, `app/services/enhanced_assessment_service.py`,
`app/routes/assessments.py`, `app/routes/enhanced_assessment_api.py`,
`app/routes/enhanced_assessments.py`, models in `app/models/assessment_models.py`
and `app/models/enhanced_assessment_models.py`).

Conventions of the embedding:
* timestamps are integers (seconds); `datetime.now()` is passed in as a `now`
  parameter; `timedelta.total_seconds()` followed by `int(...)` is plain
  integer subtraction;
* SQL `Float` columns carrying exact python arithmetic are modelled as `ℚ`;
* the database is a record of row lists plus fresh-id counters; each
  `db.commit()` in the source produces one element of a "committed states"
  trace where the order of commits matters;
* SQLAlchemy persists only declared columns.  The row structures below carry
  exactly the columns declared in the model classes.  Assignments the service
  code makes to attributes that are *not* declared columns (for the base
  `VideoRecording`: `error_message`, `download_path`, `last_downloaded_at`)
  only live on the in-memory instance; they are modelled as separate
  "transient" outputs of the operation, never written into the row;
* the opaque analyzer call is a parameter of type `Except String AnalysisData`
  (`.error msg` models the analyzer raising an exception with message `msg`);
* the random draws of the enhanced mock generator are a parameter.
-/

set_option maxRecDepth 8000

/-- A JSON scalar as stored in the schema-less JSON columns. -/
inductive JVal where
  | num (q : ℚ)
  | str (s : String)
deriving DecidableEq, Repr

/-- Output of the opaque video analyzer
(`VideoAnalysisService.analyze_video_mock` returns a dict of this shape). -/
structure AnalysisData where
  emotional_analysis : List (String × ℚ)
  mood_score : ℚ
  dominant_emotion : String
  engagement_level : ℚ
  focus_score : ℚ
  confidence_level : ℚ
  personality_insights : List (String × ℚ)
  attention_metrics : List (String × JVal)
  cognitive_analysis : List (String × JVal)
  problem_solving_style : String
  overall_score : ℚ
  analysis_remarks : String
deriving DecidableEq, Repr

/-- The fixed dict returned by `VideoAnalysisService.analyze_video_mock`. -/
def mockAnalysisData : AnalysisData where
  emotional_analysis :=
    [("happiness", 75/100), ("sadness", 12/100), ("anger", 8/100),
     ("surprise", 25/100), ("fear", 5/100), ("disgust", 3/100), ("neutral", 15/100)]
  mood_score := 72/100
  dominant_emotion := "happiness"
  engagement_level := 85/100
  focus_score := 78/100
  confidence_level := 68/100
  personality_insights :=
    [("openness", 82/100), ("conscientiousness", 75/100), ("extraversion", 60/100),
     ("agreeableness", 70/100), ("neuroticism", 35/100)]
  attention_metrics :=
    [("gaze_stability", .num (80/100)), ("blink_rate", .str "normal"),
     ("head_movement", .str "moderate"), ("posture_consistency", .num (75/100))]
  cognitive_analysis :=
    [("concentration_level", .num (82/100)), ("mental_workload", .str "moderate"),
     ("problem_solving_efficiency", .num (70/100)),
     ("decision_making_speed", .str "deliberate")]
  problem_solving_style := "analytical"
  overall_score := 76/100
  analysis_remarks := "User showed good engagement and positive emotional state throughout the assessment. Demonstrated analytical thinking patterns."

/-- Row of `assessment_sessions` (model `AssessmentSession`), declared columns only. -/
structure SessionRow where
  id : Nat
  user_id : Int
  assessment_type_id : Nat
  started_at : Option Int
  completed_at : Option Int
  status : String
  total_score : Option ℚ
  max_score : Option ℚ
  percentage : Option ℚ
  time_taken_seconds : Option Int
deriving DecidableEq, Repr

/-- Row of `assessment_responses` (model `AssessmentResponse`). -/
structure AssessmentResponseRow where
  id : Nat
  session_id : Nat
  question_id : Nat
  user_answer : String
  points_earned : ℚ
  response_time_seconds : Int
deriving DecidableEq, Repr

/-- Row of `video_recordings` (model `VideoRecording`).  NOTE: the model class
declares no `error_message`, `download_path` or `last_downloaded_at` column,
so the persisted row has no such fields even though the service code assigns
those names on fetched instances. -/
structure VideoRecordingRow where
  id : Nat
  session_id : Nat
  video_file_path : String
  video_duration_seconds : Int
  file_size_bytes : Int
  recording_started_at : Option Int
  recording_ended_at : Option Int
  processing_status : String
  created_at : Int
deriving DecidableEq, Repr

/-- Row of `video_analysis_results` (model `VideoAnalysisResult`). -/
structure VideoAnalysisResultRow where
  id : Nat
  video_recording_id : Nat
  emotional_analysis : List (String × ℚ)
  mood_score : ℚ
  dominant_emotion : String
  engagement_level : ℚ
  focus_score : ℚ
  confidence_level : ℚ
  personality_insights : List (String × ℚ)
  attention_metrics : List (String × JVal)
  cognitive_analysis : List (String × JVal)
  problem_solving_style : String
  overall_score : ℚ
  analysis_remarks : String
  processed_at : Int
deriving DecidableEq, Repr

/-- The persisted state touched by the base (non-enhanced) assessment flow. -/
structure DB where
  sessions : List SessionRow
  responses : List AssessmentResponseRow
  recordings : List VideoRecordingRow
  results : List VideoAnalysisResultRow
  nextRecordingId : Nat
  nextResultId : Nat
deriving DecidableEq, Repr

/-- `db.query(VideoRecording).filter(VideoRecording.id == recording_id).first()`. -/
def findRecording (db : DB) (rid : Nat) : Option VideoRecordingRow :=
  (db.recordings.filter (fun r => r.id == rid)).head?

/-- `db.query(AssessmentSession).filter(AssessmentSession.id == session_id).first()`. -/
def findSession (db : DB) (sid : Nat) : Option SessionRow :=
  (db.sessions.filter (fun s => s.id == sid)).head?

/-- Python truthiness of the optional `user_id: int = None` argument:
`None` and `0` are falsy, every other int is truthy. -/
def intArgTruthy : Option Int → Bool
  | none => false
  | some u => u != 0

/-- `AssessmentService.get_session_by_id`: filters by session id always, and by
`user_id` only under `if user_id:` (python truthiness). -/
def getSessionById (db : DB) (sid : Nat) (userId : Option Int) : Option SessionRow :=
  let q := db.sessions.filter (fun s => s.id == sid)
  let q := if intArgTruthy userId then q.filter (fun s => some s.user_id == userId) else q
  q.head?

/-- Set `processing_status` of the recording fetched by `recording_id`
(in-place ORM mutation followed by `db.commit()`). -/
def setRecordingStatus (db : DB) (rid : Nat) (st : String) : DB :=
  { db with recordings :=
      db.recordings.map (fun r => if r.id == rid then { r with processing_status := st } else r) }

/-- The `VideoAnalysisResult(...)` constructor call inside
`process_video_analysis`: copies every field of the analyzer output verbatim. -/
def mkResultRow (newId rid : Nat) (d : AnalysisData) (now : Int) : VideoAnalysisResultRow where
  id := newId
  video_recording_id := rid
  emotional_analysis := d.emotional_analysis
  mood_score := d.mood_score
  dominant_emotion := d.dominant_emotion
  engagement_level := d.engagement_level
  focus_score := d.focus_score
  confidence_level := d.confidence_level
  personality_insights := d.personality_insights
  attention_metrics := d.attention_metrics
  cognitive_analysis := d.cognitive_analysis
  problem_solving_style := d.problem_solving_style
  overall_score := d.overall_score
  analysis_remarks := d.analysis_remarks
  processed_at := now

/-- Result of one run of the background job
`VideoAnalysisService.process_video_analysis`. -/
structure AnalysisRun where
  /-- database snapshots in the order they were committed -/
  commits : List DB
  /-- final database state -/
  db : DB
  /-- the `recording.error_message = str(e)` assignment: `error_message` is not
  a declared column of `VideoRecording`, so the value only exists on the
  in-memory instance, never in the persisted row -/
  transientErrorMessage : Option String
  /-- normal return value, or the re-raised exception's message -/
  outcome : Except String VideoAnalysisResultRow
deriving Repr

/-- `VideoAnalysisService.process_video_analysis(db, recording_id, video_path)`,
with the opaque analyzer call passed in as `analyzerResult`
(`.error m` models the analyzer raising an exception whose message is `m`). -/
def processVideoAnalysis (db : DB) (rid : Nat)
    (analyzerResult : Except String AnalysisData) (now : Int) : AnalysisRun :=
  let found := (findRecording db rid).isSome
  -- `if recording: recording.processing_status = "processing"; db.commit()`
  let db1 := if found then setRecordingStatus db rid "processing" else db
  let commits1 := if found then [db1] else []
  match analyzerResult with
  | .ok data =>
      let row := mkResultRow db1.nextResultId rid data now
      -- `db.add(analysis)`, `if recording: recording.processing_status = "completed"`,
      -- `db.commit()`: one commit containing both the new row and the status flip
      let db2 :=
        { (if found then setRecordingStatus db1 rid "completed" else db1) with
          results := db1.results ++ [row]
          nextResultId := db1.nextResultId + 1 }
      { commits := commits1 ++ [db2], db := db2,
        transientErrorMessage := none, outcome := .ok row }
  | .error m =>
      if found then
        -- `recording.processing_status = "failed"`, `recording.error_message = str(e)`,
        -- `db.commit()`; only the status is a declared column, so only it persists
        let db2 := setRecordingStatus db1 rid "failed"
        { commits := commits1 ++ [db2], db := db2,
          transientErrorMessage := some m, outcome := .error m }
      else
        { commits := commits1, db := db1,
          transientErrorMessage := none, outcome := .error m }

/-- Server filesystem: the sets of existing regular files and directories. -/
structure FS where
  files : List String
  dirs : List String
deriving DecidableEq, Repr

/-- `os.path.exists`. -/
def pathExists (fs : FS) (p : String) : Bool :=
  p ∈ fs.files || p ∈ fs.dirs

/-- Writing a file (`open(path, 'wb')` / `shutil.copy2` destination). -/
def writeFile (fs : FS) (p : String) : FS :=
  { fs with files := p :: fs.files }

/-- `Path(p).mkdir(parents=True, exist_ok=True)`. -/
def mkdirAll (fs : FS) (p : String) : FS :=
  { fs with dirs := p :: fs.dirs }

/-- Python truthiness of the optional `str = None` argument:
`None` and the empty string are falsy. -/
def strArgTruthy : Option String → Bool
  | none => false
  | some s => s != ""

/-- `AssessmentService.get_video_download_path(session_id, user_specified_path)`:
the caller-specified folder (created if absent) or the default
`Path.home() / "Downloads"`.  `home` is the environment's home directory. -/
def getVideoDownloadPath (userSpecifiedPath : Option String) (fs : FS)
    (home : String) : String × FS :=
  if strArgTruthy userSpecifiedPath then
    (userSpecifiedPath.getD "", mkdirAll fs (userSpecifiedPath.getD ""))
  else
    (home ++ "/Downloads", fs)

/-- `AssessmentService.save_video_recording`: inserts a `VideoRecording` row
with `processing_status="pending"` and returns it. -/
def saveVideoRecording (db : DB) (sid : Nat) (videoFilePath : String)
    (videoDuration : Int) (fileSize : Int) (recordingStarted recordingEnded : Int)
    (now : Int) : DB × VideoRecordingRow :=
  let row : VideoRecordingRow :=
    { id := db.nextRecordingId
      session_id := sid
      video_file_path := videoFilePath
      video_duration_seconds := videoDuration
      file_size_bytes := fileSize
      recording_started_at := some recordingStarted
      recording_ended_at := some recordingEnded
      processing_status := "pending"
      created_at := now }
  ({ db with recordings := db.recordings ++ [row]
             nextRecordingId := db.nextRecordingId + 1 }, row)

/-- A queued FastAPI background task
(`background_tasks.add_task(VideoAnalysisService.process_video_analysis, ...)`);
it runs only after the request has returned. -/
structure BgTask where
  recording_id : Nat
  video_path : String
deriving DecidableEq, Repr

/-- Body of the JSON response of `POST /sessions/{id}/upload-video` — the
success body the route would build at lines 215-221; that code is unreachable
because the `save_video_recording` call above it always raises. -/
structure UploadResponse where
  message : String
  recording_id : Nat
  file_path : String
  processing_status : String
  video_duration : Int
deriving DecidableEq, Repr

/-- Result of one request to `upload_assessment_video`. -/
structure UploadRun where
  db : DB
  fs : FS
  /-- the HTTP outcome; the success constructor is never produced because the
  route's `save_video_recording` call raises `TypeError` on every invocation -/
  outcome : Except String (UploadResponse × List BgTask)
  /-- the route's local `video_duration` variable at the moment of the raise
  (`None` when the request fails before computing it) -/
  localVideoDuration : Option Int
deriving Repr

/-- Route `upload_assessment_video` (`POST /assessments/sessions/{id}/upload-video`).
`filePath` stands for the generated `UPLOAD_DIR/<user>_<session>_<uuid>.<ext>`
name, `contentsLen` for `len(contents)`.  The optional parameters keep python
truthiness: a supplied `video_duration` of `0` is recomputed
(`if not video_duration:`).  After the ownership check, the file write and the
timestamp/duration defaulting, the route calls
`AssessmentService.save_video_recording(db=..., ...,
recording_started_at=recording_started, recording_ended_at=recording_ended)`
— but the service declares those parameters `recording_started` /
`recording_ended`, so python raises `TypeError` (outside the route's
try/except, which only wraps the file write) before any recording row is
created or background task queued: the request always errors, with only the
uploaded file written. -/
def uploadAssessmentVideo (db : DB) (fs : FS) (userId : Int) (sid : Nat)
    (processAutomatically : Bool) (recordingStarted recordingEnded : Option Int)
    (videoDuration : Option Int) (filePath : String) (contentsLen : Int)
    (now : Int) : UploadRun :=
  match getSessionById db sid (some userId) with
  | none =>
      { db := db, fs := fs, outcome := .error "Assessment session not found",
        localVideoDuration := none }
  | some _ =>
      let fs1 := writeFile fs filePath
      let started := recordingStarted.getD now
      let ended := recordingEnded.getD now
      let duration :=
        match videoDuration with
        | none => ended - started
        | some d => if d == 0 then ended - started else d
      { db := db, fs := fs1,
        outcome := .error
          "TypeError: save_video_recording() got an unexpected keyword argument recording_started_at",
        localVideoDuration := some duration }

/-- Route `analyze_video_recording` (`POST /assessments/video-recordings/{id}/analyze`):
only checks existence and ownership and queues the background task; the
database is unchanged when the request returns. -/
def analyzeVideoRecording (db : DB) (userId : Int) (rid : Nat) :
    Except String (DB × List BgTask) :=
  match findRecording db rid with
  | none => .error "Video recording not found"
  | some r =>
      match getSessionById db r.session_id (some userId) with
      | none => .error "Not authorized to access this recording"
      | some _ => .ok (db, [⟨rid, r.video_file_path⟩])

/-- `AssessmentService.complete_assessment_session`: stamps completion and the
scores; `percentage = (total/max)*100 if max > 0 else 0`. -/
def completeAssessmentSession (db : DB) (sid : Nat) (totalScore maxScore : ℚ)
    (now : Int) : Except String (DB × SessionRow) :=
  match findSession db sid with
  | none => .error "Assessment session not found"
  | some s =>
      let pct : ℚ := if maxScore > 0 then totalScore / maxScore * 100 else 0
      let tts := match s.started_at with
        | some st => some (now - st)
        | none => s.time_taken_seconds
      let s1 : SessionRow :=
        { s with status := "completed"
                 completed_at := some now
                 total_score := some totalScore
                 max_score := some maxScore
                 percentage := some pct
                 time_taken_seconds := tts }
      .ok ({ db with sessions :=
               db.sessions.map (fun x => if x.id == sid then s1 else x) }, s1)

/-- Result of one run of `AssessmentService.save_video_to_user_location`. -/
structure DownloadRun where
  /-- returned destination path, or the raised error's message -/
  outcome : Except String String
  db : DB
  fs : FS
  /-- `recording.download_path = destination_path`: not a declared column of
  `VideoRecording`, so the value only exists on the in-memory instance -/
  transientDownloadPath : Option String
  /-- `recording.last_downloaded_at = datetime.now()`: likewise transient -/
  transientLastDownloadedAt : Option Int
deriving Repr

/-- The deterministic copy name
`f"assessment_video_session_{recording.session_id}_{timestamp}.webm"`. -/
def downloadFilename (sid : Nat) (timestamp : String) : String :=
  "assessment_video_session_" ++ toString sid ++ "_" ++ timestamp ++ ".webm"

/-- `AssessmentService.save_video_to_user_location(db, recording_id, folder)`.
`timestamp` stands for `datetime.now().strftime("%Y%m%d_%H%M%S")`. -/
def saveVideoToUserLocation (db : DB) (fs : FS) (rid : Nat)
    (userSpecifiedFolder : Option String) (home : String) (timestamp : String)
    (now : Int) : DownloadRun :=
  match findRecording db rid with
  | none =>
      { outcome := .error "Video recording not found", db := db, fs := fs,
        transientDownloadPath := none, transientLastDownloadedAt := none }
  | some r =>
      if pathExists fs r.video_file_path then
        let (folder, fs1) := getVideoDownloadPath userSpecifiedFolder fs home
        let destination := folder ++ "/" ++ downloadFilename r.session_id timestamp
        let fs2 := writeFile fs1 destination
        -- `recording.download_path = ...; recording.last_downloaded_at = ...;
        -- db.commit()`: neither name is a declared column of `VideoRecording`,
        -- so the commit persists nothing and the rows stay unchanged
        { outcome := .ok destination, db := db, fs := fs2,
          transientDownloadPath := some destination,
          transientLastDownloadedAt := some now }
      else
        { outcome := .error "Source video file not found", db := db, fs := fs,
          transientDownloadPath := none, transientLastDownloadedAt := none }

/-- Modelled from the spec: `VideoAnalysisResult.to_dict`, called by
`get_comprehensive_results`, is defined on the declarative `Base` in
`app/models/base.py`, which is missing from the sources; §6 says external
reporting "may serialize the analysis result and recording metadata as JSON",
so it is modelled as a total JSON serialization of the row. -/
def resultToDict (a : VideoAnalysisResultRow) : List (String × JVal) :=
  [("id", .num (a.id : ℚ)),
   ("video_recording_id", .num (a.video_recording_id : ℚ)),
   ("mood_score", .num a.mood_score),
   ("dominant_emotion", .str a.dominant_emotion),
   ("engagement_level", .num a.engagement_level),
   ("focus_score", .num a.focus_score),
   ("confidence_level", .num a.confidence_level),
   ("problem_solving_style", .str a.problem_solving_style),
   ("overall_score", .num a.overall_score),
   ("analysis_remarks", .str a.analysis_remarks),
   ("processed_at", .num a.processed_at)]

/-- The `"session"` part of the comprehensive-results payload. -/
structure SessionView where
  id : Nat
  status : String
  total_score : Option ℚ
  max_score : Option ℚ
  percentage : Option ℚ
  time_taken_seconds : Option Int
  started_at : Option Int
  completed_at : Option Int
deriving DecidableEq, Repr

/-- One element of the `"responses"` part of the payload. -/
structure ResponseView where
  question_id : Nat
  user_answer : String
  response_time_seconds : Int
deriving DecidableEq, Repr

/-- The `"video_recording"` part of the payload.  `recordingExists` is the
`"exists"` key; every field is an explicit null/absent marker when no
recording row is present.  `download_available` is
`recording and os.path.exists(...)`: python `None` when there is no recording,
a boolean otherwise. -/
structure RecordingView where
  recordingExists : Bool
  duration : Option Int
  file_size : Option Int
  processing_status : Option String
  download_available : Option Bool
deriving DecidableEq, Repr

/-- The full payload of `AssessmentResultsService.get_comprehensive_results`. -/
structure ComprehensivePayload where
  session : SessionView
  responses : List ResponseView
  video_recording : RecordingView
  video_analysis : Option (List (String × JVal))
deriving DecidableEq, Repr

/-- `AssessmentResultsService.get_comprehensive_results(db, session_id, user_id)`.
The session lookup filters by both id and owner; `{"error": "Session not
found"}` is the only failure, every other part degrades to explicit
null/absent markers. -/
def getComprehensiveResults (db : DB) (fs : FS) (sid : Nat) (userId : Int) :
    Except String ComprehensivePayload :=
  match (db.sessions.filter (fun s => s.id == sid && s.user_id == userId)).head? with
  | none => .error "Session not found"
  | some s =>
      let responses := db.responses.filter (fun r => r.session_id == sid)
      let recOpt := (db.recordings.filter (fun r => r.session_id == sid)).head?
      let analysisOpt : Option VideoAnalysisResultRow :=
        match recOpt with
        | some r => (db.results.filter (fun a => a.video_recording_id == r.id)).head?
        | none => none
      .ok
        { session :=
            { id := s.id, status := s.status, total_score := s.total_score,
              max_score := s.max_score, percentage := s.percentage,
              time_taken_seconds := s.time_taken_seconds,
              started_at := s.started_at, completed_at := s.completed_at }
          responses := responses.map (fun r =>
            { question_id := r.question_id, user_answer := r.user_answer,
              response_time_seconds := r.response_time_seconds })
          video_recording :=
            { recordingExists := recOpt.isSome
              duration := recOpt.map (fun r => r.video_duration_seconds)
              file_size := recOpt.map (fun r => r.file_size_bytes)
              processing_status := recOpt.map (fun r => r.processing_status)
              download_available := recOpt.map (fun r => pathExists fs r.video_file_path) }
          video_analysis := analysisOpt.map resultToDict }

/-- Number of `VideoAnalysisResult` rows keyed to recording `rid`. -/
def resultCount (db : DB) (rid : Nat) : Nat :=
  db.results.countP (fun a => a.video_recording_id == rid)

/-- The §3 invariant on the base schema: a result row exists iff the
recording's `processing_status` is `"completed"`, and a completed recording
has exactly one result row. -/
def invariantBase (db : DB) : Prop :=
  ∀ r ∈ db.recordings,
    (resultCount db r.id ≠ 0 ↔ r.processing_status = "completed") ∧
    (r.processing_status = "completed" → resultCount db r.id = 1)

instance (db : DB) : Decidable (invariantBase db) := by
  unfold invariantBase; infer_instance

/-- Row of `enhanced_questions` (model `EnhancedQuestion`). -/
structure EnhQuestion where
  id : Nat
  assessment_type_id : Nat
  question_text : String
  question_type : String
  options : List String
  correct_answer : Option String
  points : Int
  order_index : Int
  is_active : Bool
deriving DecidableEq, Repr

/-- Row of `enhanced_assessment_sessions` (model `EnhancedAssessmentSession`). -/
structure EnhSession where
  id : Nat
  user_id : Int
  assessment_type_id : Nat
  session_code : String
  status : String
  total_score : ℚ
  max_score : ℚ
  percentage : ℚ
  time_taken_seconds : Int
  started_at : Option Int
  completed_at : Option Int
deriving DecidableEq, Repr

/-- Row of `enhanced_assessment_responses` (model `EnhancedAssessmentResponse`). -/
structure EnhResponseRow where
  id : Nat
  session_id : Nat
  question_id : Nat
  user_answer : String
  is_correct : Bool
  points_earned : Int
  response_time_seconds : Int
deriving DecidableEq, Repr

/-- Row of `enhanced_video_recordings` (model `EnhancedVideoRecording`); this
model does declare `download_path`, `last_downloaded_at` and `error_message`. -/
structure EnhRecording where
  id : Nat
  session_id : Nat
  video_file_path : Option String
  video_duration_seconds : Option Int
  file_size_bytes : Option Int
  recording_started_at : Option Int
  recording_ended_at : Option Int
  processing_status : String
  download_path : Option String
  last_downloaded_at : Option Int
  error_message : Option String
  created_at : Int
deriving DecidableEq, Repr

/-- The analysis payload produced by
`EnhancedAssessmentService.generate_mock_video_analysis`; its values come from
`random.*` draws and are therefore a parameter of the embedding. -/
structure MockAnalysisData where
  emotional_analysis : List (String × ℚ)
  mood_score : ℚ
  dominant_emotion : String
  engagement_level : ℚ
  focus_score : ℚ
  confidence_level : ℚ
  motivation_level : ℚ
  personality_insights : List (String × ℚ)
  attention_metrics : List (String × JVal)
  cognitive_analysis : List (String × JVal)
  problem_solving_style : String
  career_predictions : List (String × JVal)
  overall_score : ℚ
  analysis_remarks : String
deriving DecidableEq, Repr

/-- Row of `mock_video_analysis` (model `MockVideoAnalysis`). -/
structure MockAnalysisRow where
  id : Nat
  session_id : Nat
  video_recording_id : Nat
  payload : MockAnalysisData
  processed_at : Int
deriving DecidableEq, Repr

/-- The persisted state touched by the enhanced assessment flow. -/
structure EDB where
  sessions : List EnhSession
  questions : List EnhQuestion
  responses : List EnhResponseRow
  recordings : List EnhRecording
  analyses : List MockAnalysisRow
  nextResponseId : Nat
  nextRecordingId : Nat
  nextAnalysisId : Nat
deriving DecidableEq, Repr

/-- `db.query(EnhancedAssessmentSession).filter(... id == session_id).first()`
— note: no user filter. -/
def findEnhSession (edb : EDB) (sid : Nat) : Option EnhSession :=
  (edb.sessions.filter (fun s => s.id == sid)).head?

/-- `db.query(EnhancedQuestion).filter(... id == question_id).first()`. -/
def findEnhQuestion (edb : EDB) (qid : Nat) : Option EnhQuestion :=
  (edb.questions.filter (fun q => q.id == qid)).head?

/-- One element of the submitted `responses` list (a request dict with
`question_id`, `user_answer` and optional `response_time_seconds`). -/
structure ResponseData where
  question_id : Nat
  user_answer : String
  response_time_seconds : Int
deriving DecidableEq, Repr

/-- Payload of a freshly created `EnhancedAssessmentResponse` (everything but
the autoincremented primary key). -/
structure EnhResponsePayload where
  session_id : Nat
  question_id : Nat
  user_answer : String
  is_correct : Bool
  points_earned : Int
  response_time_seconds : Int
deriving DecidableEq, Repr

/-- The scoring loop of `EnhancedAssessmentService.submit_assessment_responses`:
for each submitted response whose question id resolves, correctness is
`user_answer == question.correct_answer` (exact string equality against the
nullable column), `points_earned = question.points if is_correct else 0`, and
the response row is created; unresolvable question ids are skipped.  Returns
(created rows, `total_score`, `max_score`). -/
def scoreResponses (edb : EDB) (sid : Nat) :
    List ResponseData → List EnhResponsePayload × Int × Int
  | [] => ([], 0, 0)
  | rd :: rest =>
      let prev := scoreResponses edb sid rest
      match findEnhQuestion edb rd.question_id with
      | none => prev
      | some q =>
          let isCorrect : Bool := some rd.user_answer == q.correct_answer
          let pointsEarned : Int := if isCorrect then q.points else 0
          ({ session_id := sid
             question_id := rd.question_id
             user_answer := rd.user_answer
             is_correct := isCorrect
             points_earned := pointsEarned
             response_time_seconds := rd.response_time_seconds } :: prev.1,
           pointsEarned + prev.2.1, q.points + prev.2.2)

/-- Assign the autoincremented primary keys to a batch of new response rows. -/
def assignResponseIds (start : Nat) : List EnhResponsePayload → List EnhResponseRow
  | [] => []
  | p :: rest =>
      { id := start, session_id := p.session_id, question_id := p.question_id,
        user_answer := p.user_answer, is_correct := p.is_correct,
        points_earned := p.points_earned,
        response_time_seconds := p.response_time_seconds }
        :: assignResponseIds (start + 1) rest

/-- The dict returned by `submit_assessment_responses` on success. -/
structure SubmitResult where
  session_id : Nat
  total_score : Int
  max_score : Int
  percentage : ℚ
  time_taken : Int
deriving DecidableEq, Repr

/-- `EnhancedAssessmentService.submit_assessment_responses(db, session_id,
responses)`: scores the responses, stores them, and completes the session with
`percentage = (total/max*100) if max > 0 else 0`.  Returns `{"error": ...}`
(database unchanged) when the session id does not resolve. -/
def submitAssessmentResponses (edb : EDB) (sid : Nat)
    (responses : List ResponseData) (now : Int) : EDB × Except String SubmitResult :=
  match findEnhSession edb sid with
  | none => (edb, .error "Session not found")
  | some s =>
      let scored := scoreResponses edb sid responses
      let rows := scored.1
      let total := scored.2.1
      let maxS := scored.2.2
      let pct : ℚ := if maxS > 0 then (total : ℚ) / (maxS : ℚ) * 100 else 0
      let tts : Int := match s.started_at with
        | some st => now - st
        | none => s.time_taken_seconds
      let s1 : EnhSession :=
        { s with total_score := (total : ℚ)
                 max_score := (maxS : ℚ)
                 percentage := pct
                 status := "completed"
                 completed_at := some now
                 time_taken_seconds := tts }
      ({ edb with
           sessions := edb.sessions.map (fun x => if x.id == sid then s1 else x)
           responses := edb.responses ++ assignResponseIds edb.nextResponseId rows
           nextResponseId := edb.nextResponseId + rows.length },
       .ok { session_id := sid, total_score := total, max_score := maxS,
             percentage := pct, time_taken := tts })

/-- `EnhancedAssessmentService.generate_mock_video_analysis(session_id,
recording_id)`: builds a `MockVideoAnalysis` row keyed to the session and the
recording; the randomly drawn payload is the `data` parameter. -/
def generateMockVideoAnalysis (newId sid rid : Nat) (data : MockAnalysisData)
    (now : Int) : MockAnalysisRow :=
  { id := newId, session_id := sid, video_recording_id := rid,
    payload := data, processed_at := now }

/-- Set `processing_status` of an enhanced recording fetched by id. -/
def setEnhRecordingStatus (edb : EDB) (rid : Nat) (st : String) : EDB :=
  { edb with recordings :=
      edb.recordings.map (fun r => if r.id == rid then { r with processing_status := st } else r) }

/-- The `EnhancedVideoRecording(...)` constructor call of
`app/routes/enhanced_assessment_api.py` submit: only session id, status
`"pending"` and the two timestamps are populated. -/
def apiRecording (edb1 : EDB) (sid : Nat) (now : Int) : EnhRecording where
  id := edb1.nextRecordingId
  session_id := sid
  video_file_path := none
  video_duration_seconds := none
  file_size_bytes := none
  recording_started_at := some now
  recording_ended_at := some now
  processing_status := "pending"
  download_path := none
  last_downloaded_at := none
  error_message := none
  created_at := now

/-- State after the api submit's second commit (recording added, pending). -/
def apiState2 (edb1 : EDB) (sid : Nat) (now : Int) : EDB :=
  { edb1 with recordings := edb1.recordings ++ [apiRecording edb1 sid now]
              nextRecordingId := edb1.nextRecordingId + 1 }

/-- State after the api submit's third commit (analysis row added while the
recording is still pending). -/
def apiState3 (edb1 : EDB) (sid : Nat) (data : MockAnalysisData) (now : Int) : EDB :=
  { apiState2 edb1 sid now with
    analyses := (apiState2 edb1 sid now).analyses ++
      [generateMockVideoAnalysis (apiState2 edb1 sid now).nextAnalysisId sid
        (apiRecording edb1 sid now).id data now]
    nextAnalysisId := (apiState2 edb1 sid now).nextAnalysisId + 1 }

/-- State after the api submit's fourth commit (status flipped to completed). -/
def apiState4 (edb1 : EDB) (sid : Nat) (data : MockAnalysisData) (now : Int) : EDB :=
  setEnhRecordingStatus (apiState3 edb1 sid data now)
    (apiRecording edb1 sid now).id "completed"

/-- Route `submit_assessment_session` of `app/routes/enhanced_assessment_api.py`
(`POST /api/v1/assessments/sessions/{id}/submit`).  Returns the committed
database states in commit order.  The commit order in the source is: scores,
then the recording with `processing_status="pending"`, then the analysis row,
then the flip to `"completed"`. -/
def enhancedApiSubmitCommits (edb : EDB) (sid : Nat)
    (responses : List ResponseData) (data : MockAnalysisData) (now : Int) :
    List EDB × Except String Unit :=
  let edb1 := (submitAssessmentResponses edb sid responses now).1
  match (submitAssessmentResponses edb sid responses now).2 with
  | .error m => ([], .error m)
  | .ok _ =>
      ([edb1, apiState2 edb1 sid now, apiState3 edb1 sid data now,
        apiState4 edb1 sid data now], .ok ())

/-- The `EnhancedVideoRecording(...)` constructor call of
`app/routes/enhanced_assessments.py` submit: hard-coded mock path, duration
and size, and status `"completed"` from the start. -/
def enhRecording (edb1 : EDB) (sid : Nat) (now : Int) : EnhRecording where
  id := edb1.nextRecordingId
  session_id := sid
  video_file_path := some "/mock/path/to/video.webm"
  video_duration_seconds := some 300
  file_size_bytes := some 1024000
  recording_started_at := some now
  recording_ended_at := some now
  processing_status := "completed"
  download_path := none
  last_downloaded_at := none
  error_message := none
  created_at := now

/-- State after the second commit of the `enhanced_assessments.py` submit
(recording added already `"completed"`, no analysis row yet). -/
def enhState2 (edb1 : EDB) (sid : Nat) (now : Int) : EDB :=
  { edb1 with recordings := edb1.recordings ++ [enhRecording edb1 sid now]
              nextRecordingId := edb1.nextRecordingId + 1 }

/-- State after the third commit of the `enhanced_assessments.py` submit
(analysis row added). -/
def enhState3 (edb1 : EDB) (sid : Nat) (data : MockAnalysisData) (now : Int) : EDB :=
  { enhState2 edb1 sid now with
    analyses := (enhState2 edb1 sid now).analyses ++
      [generateMockVideoAnalysis (enhState2 edb1 sid now).nextAnalysisId sid
        (enhRecording edb1 sid now).id data now]
    nextAnalysisId := (enhState2 edb1 sid now).nextAnalysisId + 1 }

/-- Route `submit_assessment_session` of `app/routes/enhanced_assessments.py`
(`POST /enhanced-assessments/sessions/{id}/submit`).  Rejects an empty
response list; creates the mock recording already in `processing_status
"completed"`, commits, and only then commits the analysis row. -/
def enhancedSubmitCommits (edb : EDB) (sid : Nat)
    (responses : List ResponseData) (data : MockAnalysisData) (now : Int) :
    List EDB × Except String Unit :=
  if responses.isEmpty then ([], .error "No responses provided")
  else
    let edb1 := (submitAssessmentResponses edb sid responses now).1
    match (submitAssessmentResponses edb sid responses now).2 with
    | .error m => ([], .error m)
    | .ok _ =>
        ([edb1, enhState2 edb1 sid now, enhState3 edb1 sid data now], .ok ())

/-- Number of `MockVideoAnalysis` rows keyed to recording `rid`. -/
def enhResultCount (edb : EDB) (rid : Nat) : Nat :=
  edb.analyses.countP (fun a => a.video_recording_id == rid)

/-- The §3 invariant on the enhanced schema: an analysis row exists iff the
recording's `processing_status` is `"completed"`, and a completed recording
has exactly one analysis row. -/
def invariantEnh (edb : EDB) : Prop :=
  ∀ r ∈ edb.recordings,
    (enhResultCount edb r.id ≠ 0 ↔ r.processing_status = "completed") ∧
    (r.processing_status = "completed" → enhResultCount edb r.id = 1)

instance (edb : EDB) : Decidable (invariantEnh edb) := by
  unfold invariantEnh; infer_instance

/-- Well-formedness of the enhanced state: recording primary keys are below
the autoincrement counter and analysis rows only reference existing
recordings. -/
def wfEnh (edb : EDB) : Prop :=
  (∀ r ∈ edb.recordings, r.id < edb.nextRecordingId) ∧
  (∀ a ∈ edb.analyses, a.video_recording_id < edb.nextRecordingId)

instance (edb : EDB) : Decidable (wfEnh edb) := by
  unfold wfEnh; infer_instance

/-! ### Concrete states used by counterexamples and witnesses -/

/-- A base-flow state with one in-progress session owned by user 7. -/
def exDB : DB where
  sessions := [{ id := 1, user_id := 7, assessment_type_id := 1,
                 started_at := some 0, completed_at := none,
                 status := "in_progress", total_score := none, max_score := none,
                 percentage := none, time_taken_seconds := none }]
  responses := []
  recordings := []
  results := []
  nextRecordingId := 1
  nextResultId := 1

/-- An empty server filesystem. -/
def exFS : FS where
  files := []
  dirs := []

/-- An enhanced-flow state with one in-progress session and one 1-point
question. -/
def exEDB : EDB where
  sessions := [{ id := 1, user_id := 7, assessment_type_id := 1,
                 session_code := "abcd1234", status := "in_progress",
                 total_score := 0, max_score := 0, percentage := 0,
                 time_taken_seconds := 0, started_at := some 0,
                 completed_at := none }]
  questions := [{ id := 1, assessment_type_id := 1,
                  question_text := "How do you typically react in social situations?",
                  question_type := "multiple_choice",
                  options := ["Very outgoing and sociable", "Comfortable with small groups",
                              "Prefer one-on-one interactions", "Rather be alone"],
                  correct_answer := some "Comfortable with small groups",
                  points := 1, order_index := 1, is_active := true }]
  responses := []
  recordings := []
  analyses := []
  nextResponseId := 1
  nextRecordingId := 1
  nextAnalysisId := 1

/-- A trivial draw of the random mock-analysis payload. -/
def exMockData : MockAnalysisData where
  emotional_analysis := [("happiness", 1)]
  mood_score := 0
  dominant_emotion := "happiness"
  engagement_level := 0
  focus_score := 0
  confidence_level := 0
  motivation_level := 0
  personality_insights := []
  attention_metrics := []
  cognitive_analysis := []
  problem_solving_style := "analytical"
  career_predictions := []
  overall_score := 0
  analysis_remarks := "mock"

/-! ### Helper lemmas -/

theorem setRecordingStatus_results (db : DB) (rid : Nat) (st : String) :
    (setRecordingStatus db rid st).results = db.results := rfl

theorem resultCount_setRecordingStatus (db : DB) (rid : Nat) (st : String) (x : Nat) :
    resultCount (setRecordingStatus db rid st) x = resultCount db x := rfl

theorem mem_recordings_setRecordingStatus {db : DB} {rid : Nat} {st : String}
    {r1 : VideoRecordingRow} :
    r1 ∈ (setRecordingStatus db rid st).recordings ↔
      ∃ r ∈ db.recordings,
        (if r.id == rid then { r with processing_status := st } else r) = r1 := by
  simp [setRecordingStatus, List.mem_map]

theorem findRecording_mem {db : DB} {rid : Nat} {r : VideoRecordingRow}
    (h : findRecording db rid = some r) : r ∈ db.recordings ∧ r.id = rid := by
  unfold findRecording at h
  have hmem := List.mem_of_mem_head? h
  have := List.mem_filter.1 hmem
  exact ⟨this.1, by simpa using this.2⟩

theorem findSession_mem {db : DB} {sid : Nat} {s : SessionRow}
    (h : findSession db sid = some s) : s ∈ db.sessions ∧ s.id = sid := by
  unfold findSession at h
  have hmem := List.mem_of_mem_head? h
  have := List.mem_filter.1 hmem
  exact ⟨this.1, by simpa using this.2⟩

theorem findEnhSession_mem {edb : EDB} {sid : Nat} {s : EnhSession}
    (h : findEnhSession edb sid = some s) : s ∈ edb.sessions ∧ s.id = sid := by
  unfold findEnhSession at h
  have hmem := List.mem_of_mem_head? h
  have := List.mem_filter.1 hmem
  exact ⟨this.1, by simpa using this.2⟩

/-! ### Claim C10 -/

/-- Claim C10: `get_session_by_id` applies its user filter only when the
supplied `user_id` is truthy; with `None` or `0` the lookup returns the first
session with the requested id regardless of which user owns it, so ownership
checks built on it degrade to bare existence checks for falsy user ids. -/
theorem claim_C10_get_session_by_id_falsy_user_filter (db : DB) (sid : Nat) :
    getSessionById db sid none = (db.sessions.filter (fun s => s.id == sid)).head? ∧
    getSessionById db sid (some 0) = (db.sessions.filter (fun s => s.id == sid)).head? ∧
    ∀ u : Int,
      getSessionById db sid (some u) =
        if u != 0 then
          ((db.sessions.filter (fun s => s.id == sid)).filter
            (fun s => some s.user_id == some u)).head?
        else (db.sessions.filter (fun s => s.id == sid)).head? := by
  refine ⟨rfl, rfl, fun u => ?_⟩
  by_cases hu : u = 0
  · subst hu; rfl
  · have : (u != 0) = true := by simpa using hu
    simp [getSessionById, intArgTruthy, this]

/-! ### Claim C3 -/

/-- Claim C3: on every submission of assessment responses the stored
percentage is `total/max*100` when `max > 0` and `0` when `max = 0` (no
division-by-zero), for any combination of answered and skipped questions, in
both the enhanced submission service and the base session-completion
service. -/
theorem claim_C3_percentage_formula :
    (∀ (edb : EDB) (sid : Nat) (rs : List ResponseData) (now : Int) (s : EnhSession),
      findEnhSession edb sid = some s →
      (∃ res : SubmitResult, (submitAssessmentResponses edb sid rs now).2 = .ok res) ∧
      ∀ s1 ∈ (submitAssessmentResponses edb sid rs now).1.sessions, s1.id = sid →
        (s1.percentage =
          if s1.max_score > 0 then s1.total_score / s1.max_score * 100 else 0) ∧
        (s1.max_score = 0 → s1.percentage = 0)) ∧
    (∀ (db : DB) (sid : Nat) (t m : ℚ) (now : Int) (s : SessionRow),
      findSession db sid = some s →
      ∃ out : DB × SessionRow,
        completeAssessmentSession db sid t m now = .ok out ∧
        out.2.percentage = some (if m > 0 then t / m * 100 else 0) ∧
        (m = 0 → out.2.percentage = some 0) ∧
        ∀ s1 ∈ out.1.sessions, s1.id = sid →
          s1.percentage = some (if m > 0 then t / m * 100 else 0)) := by
  constructor
  · intro edb sid rs now s h
    obtain ⟨hmem, hsid⟩ := findEnhSession_mem h
    unfold submitAssessmentResponses
    rw [h]
    refine ⟨⟨_, rfl⟩, ?_⟩
    intro s1 hs1 hid
    simp only [List.mem_map] at hs1
    obtain ⟨x, hx, hxeq⟩ := hs1
    by_cases hxid : x.id == sid
    · rw [if_pos hxid] at hxeq
      subst hxeq
      constructor
      · by_cases hm : (scoreResponses edb sid rs).2.2 > 0
        · have hmq : ((scoreResponses edb sid rs).2.2 : ℚ) > 0 := by exact_mod_cast hm
          simp [hm, hmq]
        · have hmq : ¬ (((scoreResponses edb sid rs).2.2 : ℚ) > 0) := by
            intro hq; exact hm (by exact_mod_cast hq)
          simp [hm, hmq]
      · intro hzero
        have hzero2 : ((scoreResponses edb sid rs).2.2 : ℚ) = 0 := hzero
        have hz : (scoreResponses edb sid rs).2.2 = 0 := by exact_mod_cast hzero2
        simp [hz]
    · rw [if_neg hxid] at hxeq
      subst hxeq
      exact absurd (by simpa using hid) (by simpa using hxid)
  · intro db sid t m now s h
    unfold completeAssessmentSession
    rw [h]
    refine ⟨_, rfl, rfl, ?_, ?_⟩
    · intro hm; simp [hm]
    · intro s1 hs1 hid
      simp only [List.mem_map] at hs1
      obtain ⟨x, hx, hxeq⟩ := hs1
      by_cases hxid : x.id == sid
      · rw [if_pos hxid] at hxeq
        subst hxeq
        rfl
      · rw [if_neg hxid] at hxeq
        subst hxeq
        exact absurd (by simpa using hid) (by simpa using hxid)

/-- Claim C3 witness: scenario B of the spec — submitting zero responses gives
`max_score = 0` and `percentage = 0` with no error. -/
theorem claim_C3_percentage_formula_witness :
    (∃ res : SubmitResult, (submitAssessmentResponses exEDB 1 [] 5).2 = .ok res) ∧
    (∀ s1 ∈ (submitAssessmentResponses exEDB 1 [] 5).1.sessions, s1.id = 1 →
      (s1.percentage =
        if s1.max_score > 0 then s1.total_score / s1.max_score * 100 else 0) ∧
      (s1.max_score = 0 → s1.percentage = 0)) ∧
    (submitAssessmentResponses exEDB 1 [] 5).2 =
      .ok { session_id := 1, total_score := 0, max_score := 0, percentage := 0,
            time_taken := 5 } := by
  refine ⟨?_, ?_, rfl⟩
  · exact (claim_C3_percentage_formula.1 exEDB 1 [] 5 _ rfl).1
  · exact (claim_C3_percentage_formula.1 exEDB 1 [] 5 _ rfl).2

/-! ### Claim C5 -/

/-- Claim C5: when the dispatched analyzer raises, the recording's persisted
`processing_status` becomes `"failed"` and no `VideoAnalysisResult` row is
created; but the error text only reaches the transient instance attribute
`error_message` — `VideoRecording` declares no such column, so the persisted
final state is identical for any two raised messages and records no message
text at all. -/
theorem claim_C5_analyzer_failure (db : DB) (rid : Nat) (m : String) (now : Int)
    (r : VideoRecordingRow) (h : findRecording db rid = some r) :
    (processVideoAnalysis db rid (.error m) now).outcome = .error m ∧
    (∀ r1 ∈ (processVideoAnalysis db rid (.error m) now).db.recordings,
      r1.id = rid → r1.processing_status = "failed") ∧
    (processVideoAnalysis db rid (.error m) now).db.results = db.results ∧
    (processVideoAnalysis db rid (.error m) now).transientErrorMessage = some m ∧
    ∀ m2 : String,
      (processVideoAnalysis db rid (.error m) now).db =
        (processVideoAnalysis db rid (.error m2) now).db := by
  have hfound : (findRecording db rid).isSome = true := by rw [h]; rfl
  refine ⟨?_, ?_, ?_, ?_, ?_⟩
  · simp [processVideoAnalysis, hfound]
  · intro r1 hr1 hid
    simp only [processVideoAnalysis, hfound, if_pos] at hr1
    simp only [setRecordingStatus, List.map_map, List.mem_map] at hr1
    obtain ⟨x, _, hxeq⟩ := hr1
    by_cases hxid : x.id == rid
    · simp only [Function.comp, hxid, if_pos] at hxeq
      rw [← hxeq]
    · simp only [Function.comp, hxid, Bool.false_eq_true, if_neg, if_false] at hxeq
      subst hxeq
      exact absurd (by simpa using hid) (by simpa using hxid)
  · simp [processVideoAnalysis, hfound, setRecordingStatus]
  · simp [processVideoAnalysis, hfound]
  · intro m2
    simp [processVideoAnalysis, hfound]

/-- A pending recording for session 1 of `exDB`. -/
def exRecording : VideoRecordingRow where
  id := 1
  session_id := 1
  video_file_path := "uploads/videos/v.webm"
  video_duration_seconds := 3
  file_size_bytes := 100
  recording_started_at := some 0
  recording_ended_at := some 3
  processing_status := "pending"
  created_at := 0

/-- `exDB` with the pending recording `exRecording` registered. -/
def exDB2 : DB :=
  { exDB with recordings := [exRecording], nextRecordingId := 2 }

/-- Claim C5 witness: a concrete failed run — status flips to `"failed"`, no
result row is created, the message lives only in the transient attribute, and
the persisted state does not depend on the message. -/
theorem claim_C5_analyzer_failure_witness :
    (processVideoAnalysis exDB2 1 (.error "analysis blew up") 9).outcome =
      .error "analysis blew up" ∧
    (∀ r1 ∈ (processVideoAnalysis exDB2 1 (.error "analysis blew up") 9).db.recordings,
      r1.id = 1 → r1.processing_status = "failed") ∧
    (processVideoAnalysis exDB2 1 (.error "analysis blew up") 9).db.results = [] := by
  have h := claim_C5_analyzer_failure exDB2 1 "analysis blew up" 9 exRecording (by decide)
  exact ⟨h.1, h.2.1, h.2.2.1⟩

/-! ### Claim C8 -/

/-- Claim C8: executing a download copies the source file to the
caller-specified folder (created if absent) or to the default
`<home>/Downloads` when none is given, with a name derived deterministically
from the session id and a timestamp; but the `download_path` /
`last_downloaded_at` updates only touch transient instance attributes —
`VideoRecording` declares no such columns, so the persisted rows are
unchanged by the download. -/
theorem claim_C8_download_execution (db : DB) (fs : FS) (rid : Nat)
    (folder : Option String) (home : String) (ts : String) (now : Int)
    (r : VideoRecordingRow) (h : findRecording db rid = some r)
    (hsrc : pathExists fs r.video_file_path = true) :
    (saveVideoToUserLocation db fs rid folder home ts now).outcome =
      .ok ((getVideoDownloadPath folder fs home).1 ++ "/" ++
        downloadFilename r.session_id ts) ∧
    ((getVideoDownloadPath folder fs home).1 ++ "/" ++
        downloadFilename r.session_id ts) ∈
      (saveVideoToUserLocation db fs rid folder home ts now).fs.files ∧
    (∀ p : String, folder = some p → p ≠ "" →
      p ∈ (saveVideoToUserLocation db fs rid folder home ts now).fs.dirs) ∧
    (folder = none →
      (saveVideoToUserLocation db fs rid folder home ts now).outcome =
        .ok (home ++ "/Downloads" ++ "/" ++ downloadFilename r.session_id ts)) ∧
    (saveVideoToUserLocation db fs rid folder home ts now).db = db ∧
    (saveVideoToUserLocation db fs rid folder home ts now).transientDownloadPath =
      some ((getVideoDownloadPath folder fs home).1 ++ "/" ++
        downloadFilename r.session_id ts) ∧
    (saveVideoToUserLocation db fs rid folder home ts now).transientLastDownloadedAt =
      some now := by
  refine ⟨?_, ?_, ?_, ?_, ?_, ?_, ?_⟩
  · simp [saveVideoToUserLocation, h, hsrc]
  · simp [saveVideoToUserLocation, h, hsrc, getVideoDownloadPath, writeFile, mkdirAll]
  · intro p hp hpne
    subst hp
    have : strArgTruthy (some p) = true := by simp [strArgTruthy, hpne]
    simp [saveVideoToUserLocation, h, hsrc, getVideoDownloadPath, this, writeFile,
      mkdirAll]
  · intro hnone
    subst hnone
    simp [saveVideoToUserLocation, h, hsrc, getVideoDownloadPath, strArgTruthy]
  · simp [saveVideoToUserLocation, h, hsrc]
  · simp [saveVideoToUserLocation, h, hsrc]
  · simp [saveVideoToUserLocation, h, hsrc]

/-- Claim C8 witness: scenario E — download with no destination folder copies
to `<home>/Downloads` with the deterministic name, and the persisted recording
rows are unchanged. -/
theorem claim_C8_download_execution_witness :
    (saveVideoToUserLocation exDB2
      { exFS with files := ["uploads/videos/v.webm"] } 1 none "/home/u"
      "20240101_120000" 77).outcome =
      .ok "/home/u/Downloads/assessment_video_session_1_20240101_120000.webm" ∧
    (saveVideoToUserLocation exDB2
      { exFS with files := ["uploads/videos/v.webm"] } 1 none "/home/u"
      "20240101_120000" 77).db = exDB2 := by
  have h := claim_C8_download_execution exDB2
    { exFS with files := ["uploads/videos/v.webm"] } 1 none "/home/u"
    "20240101_120000" 77 exRecording (by decide) (by decide)
  exact ⟨h.1, h.2.2.2.2.1⟩

/-! ### Claim C2 -/

/-- Claim C2 counterexample: the manual analyze endpoint dispatches analysis
on a `"pending"` recording, returns with the database unchanged — the
recording is still `"pending"`, not `"processing"` — and only queues the
background task; the upload dispatch path cannot exhibit the claimed
transition either, because its `save_video_recording` call raises `TypeError`
and the request errors with no recording created and no task queued. -/
theorem claim_C2_counterexample :
    analyzeVideoRecording exDB2 7 1 =
      .ok (exDB2, [⟨1, "uploads/videos/v.webm"⟩]) ∧
    (∀ r1 ∈ exDB2.recordings, r1.processing_status = "pending") ∧
    ("pending" : String) ≠ "processing" ∧
    (uploadAssessmentVideo exDB exFS 7 1 true none none none
      "uploads/videos/v.webm" 100 50).outcome =
      .error "TypeError: save_video_recording() got an unexpected keyword argument recording_started_at" ∧
    (uploadAssessmentVideo exDB exFS 7 1 true none none none
      "uploads/videos/v.webm" 100 50).db = exDB := by
  exact ⟨rfl, by decide, by decide, rfl, rfl⟩

/-- Claim C2 amended: dispatch does not set `"processing"` synchronously.
The upload dispatch path never dispatches at all — its `save_video_recording`
call raises `TypeError` (mismatched keyword arguments), so the request always
errors with the database unchanged, no recording created and no task queued.
The manual analyze endpoint queues the background task and returns with the
database unchanged, the recording still `"pending"`.  The transition to
`"processing"` is the first state committed by the background job itself once
it runs. -/
theorem claim_C2_amended_processing_is_asynchronous :
    (∀ (db : DB) (fs : FS) (uid : Int) (sid : Nat) (pa : Bool)
       (rs re vd : Option Int) (fp : String) (cl now : Int),
      (uploadAssessmentVideo db fs uid sid pa rs re vd fp cl now).db = db ∧
      ∃ e : String,
        (uploadAssessmentVideo db fs uid sid pa rs re vd fp cl now).outcome =
          .error e) ∧
    (∀ (db : DB) (uid : Int) (rid : Nat) (out : DB × List BgTask),
      analyzeVideoRecording db uid rid = .ok out → out.1 = db) ∧
    (∀ (db : DB) (rid : Nat) (ares : Except String AnalysisData) (now : Int)
       (r : VideoRecordingRow), findRecording db rid = some r →
      (processVideoAnalysis db rid ares now).commits.head? =
        some (setRecordingStatus db rid "processing") ∧
      ∀ r1 ∈ (setRecordingStatus db rid "processing").recordings,
        r1.id = rid → r1.processing_status = "processing") := by
  refine ⟨?_, ?_, ?_⟩
  · intro db fs uid sid pa rs re vd fp cl now
    unfold uploadAssessmentVideo
    cases hsess : getSessionById db sid (some uid) with
    | none => exact ⟨rfl, _, rfl⟩
    | some s => exact ⟨rfl, _, rfl⟩
  · intro db uid rid out hout
    cases hrec : findRecording db rid with
    | none =>
        simp only [analyzeVideoRecording, hrec] at hout
        cases hout
    | some r =>
        cases hsess : getSessionById db r.session_id (some uid) with
        | none =>
            simp only [analyzeVideoRecording, hrec, hsess] at hout
            cases hout
        | some s =>
            simp only [analyzeVideoRecording, hrec, hsess, Except.ok.injEq] at hout
            subst hout
            rfl
  · intro db rid ares now r h
    have hfound : (findRecording db rid).isSome = true := by rw [h]; rfl
    constructor
    · cases ares with
      | ok d => simp [processVideoAnalysis, hfound]
      | error m => simp [processVideoAnalysis, hfound]
    · intro r1 hr1 hid
      simp only [setRecordingStatus, List.mem_map] at hr1
      obtain ⟨x, _, hxeq⟩ := hr1
      by_cases hxid : x.id == rid
      · rw [if_pos hxid] at hxeq
        rw [← hxeq]
      · rw [if_neg hxid] at hxeq
        subst hxeq
        exact absurd (by simpa using hid) (by simpa using hxid)

/-- Claim C2 amended witness: a concrete upload leaves the database untouched
and errors, a concrete analyze call returns the database unchanged, and
running the queued background task commits `"processing"` first. -/
theorem claim_C2_amended_processing_is_asynchronous_witness :
    ((uploadAssessmentVideo exDB exFS 7 1 true none none none
        "uploads/videos/v.webm" 100 50).db = exDB ∧
      ∃ e : String,
        (uploadAssessmentVideo exDB exFS 7 1 true none none none
          "uploads/videos/v.webm" 100 50).outcome = .error e) ∧
    (∃ out : DB × List BgTask,
      analyzeVideoRecording exDB2 7 1 = .ok out ∧ out.1 = exDB2) ∧
    (processVideoAnalysis exDB2 1 (.ok mockAnalysisData) 9).commits.head? =
      some (setRecordingStatus exDB2 1 "processing") := by
  refine ⟨?_, ?_, ?_⟩
  · exact claim_C2_amended_processing_is_asynchronous.1 exDB exFS 7 1 true
      none none none "uploads/videos/v.webm" 100 50
  · exact ⟨(exDB2, [⟨1, "uploads/videos/v.webm"⟩]), rfl,
      claim_C2_amended_processing_is_asynchronous.2.1 exDB2 7 1 _ rfl⟩
  · exact (claim_C2_amended_processing_is_asynchronous.2.2 exDB2 1
      (.ok mockAnalysisData) 9 exRecording (by decide)).1

/-! ### Claim C7 -/

/-- Claim C7 counterexample: at a concrete upload (started 10, ended 3, no
supplied duration) registration creates nothing — the route errors with the
`TypeError` of its mismatched `save_video_recording` call, the database is
unchanged and holds no recording at all (so no `"pending"` recording is
created), and the local duration the route computed before the raise is `-7`,
not floored at 0. -/
theorem claim_C7_counterexample :
    (uploadAssessmentVideo exDB exFS 7 1 false (some 10) (some 3) none
      "uploads/videos/v.webm" 100 50).outcome =
      .error "TypeError: save_video_recording() got an unexpected keyword argument recording_started_at" ∧
    (uploadAssessmentVideo exDB exFS 7 1 false (some 10) (some 3) none
      "uploads/videos/v.webm" 100 50).db = exDB ∧
    (uploadAssessmentVideo exDB exFS 7 1 false (some 10) (some 3) none
      "uploads/videos/v.webm" 100 50).db.recordings = [] ∧
    (uploadAssessmentVideo exDB exFS 7 1 false (some 10) (some 3) none
      "uploads/videos/v.webm" 100 50).localVideoDuration = some (-7) ∧
    (-7 : Int) < 0 := by
  exact ⟨rfl, rfl, rfl, rfl, by decide⟩

/-- Claim C7 amended: the service `save_video_recording` does initialize
`processing_status` to `"pending"`, but the only registration path — the
upload route — never reaches it: the route always raises `TypeError`
(keyword arguments `recording_started_at`/`recording_ended_at` do not match
the service's `recording_started`/`recording_ended` parameters) and leaves
the database unchanged; with no supplied duration the route computes the
local duration as `end_ts - start_ts` in whole seconds with no floor at 0
(negative when `end_ts < start_ts`), and the value is discarded by the
raise. -/
theorem claim_C7_amended_registration_defaults :
    (∀ (db : DB) (sid : Nat) (fp : String) (d fsz : Int) (st en now : Int),
      (saveVideoRecording db sid fp d fsz st en now).2.processing_status =
        "pending" ∧
      (saveVideoRecording db sid fp d fsz st en now).1.recordings =
        db.recordings ++ [(saveVideoRecording db sid fp d fsz st en now).2]) ∧
    (∀ (db : DB) (fs : FS) (uid : Int) (sid : Nat) (pa : Bool)
       (rs re vd : Option Int) (fp : String) (cl now : Int),
      (uploadAssessmentVideo db fs uid sid pa rs re vd fp cl now).db = db ∧
      ∃ e : String,
        (uploadAssessmentVideo db fs uid sid pa rs re vd fp cl now).outcome =
          .error e) ∧
    (∀ (db : DB) (fs : FS) (uid : Int) (sid : Nat) (pa : Bool)
       (rs re : Option Int) (fp : String) (cl now : Int) (s : SessionRow),
      getSessionById db sid (some uid) = some s →
      (uploadAssessmentVideo db fs uid sid pa rs re none fp cl now).localVideoDuration =
        some (re.getD now - rs.getD now) ∧
      (uploadAssessmentVideo db fs uid sid pa rs re none fp cl now).outcome =
        .error "TypeError: save_video_recording() got an unexpected keyword argument recording_started_at") := by
  refine ⟨fun db sid fp d fsz st en now => ⟨rfl, rfl⟩, ?_, ?_⟩
  · intro db fs uid sid pa rs re vd fp cl now
    unfold uploadAssessmentVideo
    cases hsess : getSessionById db sid (some uid) with
    | none => exact ⟨rfl, _, rfl⟩
    | some s => exact ⟨rfl, _, rfl⟩
  · intro db fs uid sid pa rs re fp cl now s hsess
    unfold uploadAssessmentVideo
    rw [hsess]
    exact ⟨rfl, rfl⟩

/-- Claim C7 amended witness: concrete upload with no supplied duration and
`end_ts < start_ts` — the local duration is `3 - 10 = -7` and the request
errors with the database unchanged. -/
theorem claim_C7_amended_registration_defaults_witness :
    ((uploadAssessmentVideo exDB exFS 7 1 false (some 10) (some 3) none
        "uploads/videos/v.webm" 100 50).localVideoDuration =
      some ((some (3 : Int)).getD 50 - (some 10).getD 50) ∧
      (uploadAssessmentVideo exDB exFS 7 1 false (some 10) (some 3) none
        "uploads/videos/v.webm" 100 50).outcome =
        .error "TypeError: save_video_recording() got an unexpected keyword argument recording_started_at") ∧
    (uploadAssessmentVideo exDB exFS 7 1 false (some 10) (some 3) none
      "uploads/videos/v.webm" 100 50).db = exDB := by
  constructor
  · exact claim_C7_amended_registration_defaults.2.2 exDB exFS 7 1 false
      (some 10) (some 3) "uploads/videos/v.webm" 100 50 _ rfl
  · exact (claim_C7_amended_registration_defaults.2.1 exDB exFS 7 1 false
      (some 10) (some 3) none "uploads/videos/v.webm" 100 50).1

/-! ### Claims C4 and C9: scoring-loop lemmas -/

theorem scoreResponses_total_eq_sum (edb : EDB) (sid : Nat) :
    ∀ rs : List ResponseData,
      (scoreResponses edb sid rs).2.1 =
        (((scoreResponses edb sid rs).1).map (fun p => p.points_earned)).sum
  | [] => rfl
  | rd :: rest => by
      have ih := scoreResponses_total_eq_sum edb sid rest
      cases hq : findEnhQuestion edb rd.question_id with
      | none => simpa [scoreResponses, hq] using ih
      | some q => simp [scoreResponses, hq, ih]

theorem scoreResponses_max_eq_sum (edb : EDB) (sid : Nat) :
    ∀ rs : List ResponseData,
      (scoreResponses edb sid rs).2.2 =
        (rs.filterMap (fun rd =>
          (findEnhQuestion edb rd.question_id).map (fun q => q.points))).sum
  | [] => rfl
  | rd :: rest => by
      have ih := scoreResponses_max_eq_sum edb sid rest
      cases hq : findEnhQuestion edb rd.question_id with
      | none => simpa [scoreResponses, hq] using ih
      | some q => simp [scoreResponses, hq, ih]

theorem scoreResponses_row_sound (edb : EDB) (sid : Nat) :
    ∀ rs : List ResponseData, ∀ p ∈ (scoreResponses edb sid rs).1,
      ∃ rd ∈ rs, ∃ q : EnhQuestion,
        findEnhQuestion edb rd.question_id = some q ∧
        p.question_id = rd.question_id ∧ p.user_answer = rd.user_answer ∧
        (p.is_correct = true ↔ q.correct_answer = some rd.user_answer) ∧
        p.points_earned = (if p.is_correct then q.points else 0)
  | [], p, hp => absurd hp (by simp [scoreResponses])
  | rd :: rest, p, hp => by
      cases hq : findEnhQuestion edb rd.question_id with
      | none =>
          rw [show (scoreResponses edb sid (rd :: rest)).1 =
            (scoreResponses edb sid rest).1 by simp [scoreResponses, hq]] at hp
          obtain ⟨rd2, hrd2, q, hfind, h1, h2, h3, h4⟩ :=
            scoreResponses_row_sound edb sid rest p hp
          exact ⟨rd2, List.mem_cons_of_mem rd hrd2, q, hfind, h1, h2, h3, h4⟩
      | some q =>
          rw [show (scoreResponses edb sid (rd :: rest)).1 =
            ({ session_id := sid, question_id := rd.question_id,
               user_answer := rd.user_answer,
               is_correct := some rd.user_answer == q.correct_answer,
               points_earned :=
                 if some rd.user_answer == q.correct_answer then q.points else 0,
               response_time_seconds := rd.response_time_seconds } ::
              (scoreResponses edb sid rest).1) by simp [scoreResponses, hq]] at hp
          rcases List.mem_cons.1 hp with hphead | hptail
          · subst hphead
            refine ⟨rd, List.mem_cons_self rd rest, q, hq, rfl, rfl, ?_, rfl⟩
            exact ⟨fun h => (eq_of_beq h).symm, fun h => beq_of_eq h.symm⟩
          · obtain ⟨rd2, hrd2, q2, hfind, h1, h2, h3, h4⟩ :=
              scoreResponses_row_sound edb sid rest p hptail
            exact ⟨rd2, List.mem_cons_of_mem rd hrd2, q2, hfind, h1, h2, h3, h4⟩

theorem scoreResponses_row_complete (edb : EDB) (sid : Nat) :
    ∀ rs : List ResponseData, ∀ rd ∈ rs, ∀ q : EnhQuestion,
      findEnhQuestion edb rd.question_id = some q →
      ∃ p ∈ (scoreResponses edb sid rs).1,
        p.question_id = rd.question_id ∧ p.user_answer = rd.user_answer ∧
        (p.is_correct = true ↔ q.correct_answer = some rd.user_answer) ∧
        p.points_earned = (if p.is_correct then q.points else 0)
  | [], rd, hrd, _, _ => absurd hrd (by simp)
  | rd0 :: rest, rd, hrd, q, hfind => by
      rcases List.mem_cons.1 hrd with hhead | htail
      · subst hhead
        refine ⟨{ session_id := sid, question_id := rd.question_id,
                  user_answer := rd.user_answer,
                  is_correct := some rd.user_answer == q.correct_answer,
                  points_earned :=
                    if some rd.user_answer == q.correct_answer then q.points else 0,
                  response_time_seconds := rd.response_time_seconds }, ?_,
                rfl, rfl, ?_, rfl⟩
        · simp [scoreResponses, hfind]
        · exact ⟨fun h => (eq_of_beq h).symm, fun h => beq_of_eq h.symm⟩
      · obtain ⟨p, hp, h1, h2, h3, h4⟩ :=
          scoreResponses_row_complete edb sid rest rd htail q hfind
        refine ⟨p, ?_, h1, h2, h3, h4⟩
        cases hq0 : findEnhQuestion edb rd0.question_id with
        | none => simpa [scoreResponses, hq0] using hp
        | some q0 => simp [scoreResponses, hq0]; exact Or.inr hp

/-- Claim C4: in the enhanced submission, a response whose question id
resolves is correct exactly when `user_answer` equals the question's
`correct_answer` (exact, case-sensitive string match), earns the question's
points iff correct, `total_score` is the sum of points earned over the
created response rows, and `max_score` sums the points of only the questions
actually answered; the completed session stores exactly these totals. -/
theorem claim_C4_exact_match_scoring (edb : EDB) (sid : Nat)
    (rs : List ResponseData) :
    ((scoreResponses edb sid rs).2.1 =
      (((scoreResponses edb sid rs).1).map (fun p => p.points_earned)).sum) ∧
    ((scoreResponses edb sid rs).2.2 =
      (rs.filterMap (fun rd =>
        (findEnhQuestion edb rd.question_id).map (fun q => q.points))).sum) ∧
    (∀ p ∈ (scoreResponses edb sid rs).1, ∃ rd ∈ rs, ∃ q : EnhQuestion,
      findEnhQuestion edb rd.question_id = some q ∧
      p.question_id = rd.question_id ∧ p.user_answer = rd.user_answer ∧
      (p.is_correct = true ↔ q.correct_answer = some rd.user_answer) ∧
      p.points_earned = (if p.is_correct then q.points else 0)) ∧
    (∀ rd ∈ rs, ∀ q : EnhQuestion,
      findEnhQuestion edb rd.question_id = some q →
      ∃ p ∈ (scoreResponses edb sid rs).1,
        p.question_id = rd.question_id ∧ p.user_answer = rd.user_answer ∧
        (p.is_correct = true ↔ q.correct_answer = some rd.user_answer) ∧
        p.points_earned = (if p.is_correct then q.points else 0)) ∧
    (∀ (now : Int) (s : EnhSession), findEnhSession edb sid = some s →
      ∃ res : SubmitResult,
        (submitAssessmentResponses edb sid rs now).2 = .ok res ∧
        res.total_score = (scoreResponses edb sid rs).2.1 ∧
        res.max_score = (scoreResponses edb sid rs).2.2 ∧
        ∀ s1 ∈ (submitAssessmentResponses edb sid rs now).1.sessions, s1.id = sid →
          s1.total_score = ((scoreResponses edb sid rs).2.1 : ℚ) ∧
          s1.max_score = ((scoreResponses edb sid rs).2.2 : ℚ)) := by
  refine ⟨scoreResponses_total_eq_sum edb sid rs,
    scoreResponses_max_eq_sum edb sid rs,
    scoreResponses_row_sound edb sid rs,
    scoreResponses_row_complete edb sid rs, ?_⟩
  intro now s h
  unfold submitAssessmentResponses
  rw [h]
  refine ⟨_, rfl, rfl, rfl, ?_⟩
  intro s1 hs1 hid
  simp only [List.mem_map] at hs1
  obtain ⟨x, hx, hxeq⟩ := hs1
  by_cases hxid : x.id == sid
  · rw [if_pos hxid] at hxeq
    subst hxeq
    exact ⟨rfl, rfl⟩
  · rw [if_neg hxid] at hxeq
    subst hxeq
    exact absurd (by simpa using hid) (by simpa using hxid)

/-- Claim C4 witness: scenario-A-style concrete run — one correct and one
incorrect answer against the 1-point question of `exEDB`: `total_score = 1`,
`max_score = 2`. -/
theorem claim_C4_exact_match_scoring_witness :
    (scoreResponses exEDB 1
      [⟨1, "Comfortable with small groups", 4⟩, ⟨1, "Rather be alone", 6⟩]).2.1 =
      ((((scoreResponses exEDB 1
        [⟨1, "Comfortable with small groups", 4⟩, ⟨1, "Rather be alone", 6⟩]).1)).map
          (fun p => p.points_earned)).sum ∧
    (∃ res : SubmitResult,
      (submitAssessmentResponses exEDB 1
        [⟨1, "Comfortable with small groups", 4⟩, ⟨1, "Rather be alone", 6⟩] 9).2 =
        .ok res ∧
      res.total_score = 1 ∧ res.max_score = 2) := by
  have h := claim_C4_exact_match_scoring exEDB 1
    [⟨1, "Comfortable with small groups", 4⟩, ⟨1, "Rather be alone", 6⟩]
  refine ⟨h.1, ?_⟩
  obtain ⟨res, hres, ht, hm, _⟩ := h.2.2.2.2 9 _ rfl
  exact ⟨res, hres, by rw [ht]; decide, by rw [hm]; decide⟩

theorem scoreResponses_cons_none (edb : EDB) (sid : Nat) (x : ResponseData)
    (t : List ResponseData) (h : findEnhQuestion edb x.question_id = none) :
    scoreResponses edb sid (x :: t) = scoreResponses edb sid t := by
  simp [scoreResponses, h]

theorem scoreResponses_cons_some (edb : EDB) (sid : Nat) (x : ResponseData)
    (t : List ResponseData) (q : EnhQuestion)
    (h : findEnhQuestion edb x.question_id = some q) :
    scoreResponses edb sid (x :: t) =
      ({ session_id := sid, question_id := x.question_id,
         user_answer := x.user_answer,
         is_correct := some x.user_answer == q.correct_answer,
         points_earned :=
           if some x.user_answer == q.correct_answer then q.points else 0,
         response_time_seconds := x.response_time_seconds } ::
           (scoreResponses edb sid t).1,
       (if some x.user_answer == q.correct_answer then q.points else 0) +
         (scoreResponses edb sid t).2.1,
       q.points + (scoreResponses edb sid t).2.2) := by
  simp [scoreResponses, h]

/-- If a submitted response's question id does not resolve, the scoring loop
produces exactly the rows and totals of the list without it. -/
theorem scoreResponses_skips_unresolved (edb : EDB) (sid : Nat)
    (rd : ResponseData) (l2 : List ResponseData)
    (h : findEnhQuestion edb rd.question_id = none) :
    ∀ l1 : List ResponseData,
      scoreResponses edb sid (l1 ++ rd :: l2) = scoreResponses edb sid (l1 ++ l2)
  | [] => by
      rw [List.nil_append, List.nil_append, scoreResponses_cons_none edb sid rd l2 h]
  | x :: l1 => by
      have ih := scoreResponses_skips_unresolved edb sid rd l2 h l1
      cases hq : findEnhQuestion edb x.question_id with
      | none =>
          rw [List.cons_append, List.cons_append,
            scoreResponses_cons_none edb sid x _ hq,
            scoreResponses_cons_none edb sid x _ hq, ih]
      | some q =>
          rw [List.cons_append, List.cons_append,
            scoreResponses_cons_some edb sid x _ q hq,
            scoreResponses_cons_some edb sid x _ q hq, ih]

/-- Claim C9: a submitted response whose question id does not resolve is
silently skipped — the whole submission (stored rows, totals, session update,
success result) is identical to the submission without it, and the session is
still transitioned to `"completed"` with a success result. -/
theorem claim_C9_unresolved_question_skipped (edb : EDB) (sid : Nat)
    (rd : ResponseData) (l1 l2 : List ResponseData) (now : Int)
    (hq : findEnhQuestion edb rd.question_id = none) :
    submitAssessmentResponses edb sid (l1 ++ rd :: l2) now =
      submitAssessmentResponses edb sid (l1 ++ l2) now ∧
    ∀ s : EnhSession, findEnhSession edb sid = some s →
      (∃ res : SubmitResult,
        (submitAssessmentResponses edb sid (l1 ++ rd :: l2) now).2 = .ok res) ∧
      ∀ s1 ∈ (submitAssessmentResponses edb sid (l1 ++ rd :: l2) now).1.sessions,
        s1.id = sid → s1.status = "completed" := by
  have hskip := scoreResponses_skips_unresolved edb sid rd l2 hq l1
  constructor
  · unfold submitAssessmentResponses
    rw [hskip]
  · intro s h
    unfold submitAssessmentResponses
    rw [h]
    refine ⟨⟨_, rfl⟩, ?_⟩
    intro s1 hs1 hid
    simp only [List.mem_map] at hs1
    obtain ⟨x, hx, hxeq⟩ := hs1
    by_cases hxid : x.id == sid
    · rw [if_pos hxid] at hxeq
      subst hxeq
      rfl
    · rw [if_neg hxid] at hxeq
      subst hxeq
      exact absurd (by simpa using hid) (by simpa using hxid)

/-- Claim C9 witness: submitting one resolvable and one unresolvable
(question id 99) response behaves exactly like submitting the resolvable one
alone, and still completes the session. -/
theorem claim_C9_unresolved_question_skipped_witness :
    submitAssessmentResponses exEDB 1
      [⟨1, "Comfortable with small groups", 4⟩, ⟨99, "whatever", 2⟩] 9 =
      submitAssessmentResponses exEDB 1
        [⟨1, "Comfortable with small groups", 4⟩] 9 ∧
    (∃ res : SubmitResult,
      (submitAssessmentResponses exEDB 1
        [⟨1, "Comfortable with small groups", 4⟩, ⟨99, "whatever", 2⟩] 9).2 =
        .ok res) := by
  have h := claim_C9_unresolved_question_skipped exEDB 1 ⟨99, "whatever", 2⟩
    [⟨1, "Comfortable with small groups", 4⟩] [] 9 (by decide)
  exact ⟨h.1, (h.2 _ rfl).1⟩

/-! ### Claim C6 -/

/-- Claim C6: for every session owned by the requesting user the
comprehensive-results aggregation succeeds, with explicit absent/null markers
for the recording and analysis parts when they do not exist; it fails exactly
with `"Session not found"` when the (session, user) pair does not resolve. -/
theorem claim_C6_aggregator_partial_data :
    (∀ (db : DB) (fs : FS) (sid : Nat) (uid : Int),
      (db.sessions.filter (fun s => s.id == sid && s.user_id == uid)).head? = none →
      getComprehensiveResults db fs sid uid = .error "Session not found") ∧
    (∀ (db : DB) (fs : FS) (sid : Nat) (uid : Int) (s : SessionRow),
      (db.sessions.filter (fun s => s.id == sid && s.user_id == uid)).head? = some s →
      ∃ p : ComprehensivePayload,
        getComprehensiveResults db fs sid uid = .ok p ∧
        ((db.recordings.filter (fun r => r.session_id == sid)).head? = none →
          p.video_recording =
            { recordingExists := false, duration := none, file_size := none,
              processing_status := none, download_available := none } ∧
          p.video_analysis = none) ∧
        (∀ r : VideoRecordingRow,
          (db.recordings.filter (fun r => r.session_id == sid)).head? = some r →
          (db.results.filter (fun a => a.video_recording_id == r.id)).head? = none →
          p.video_analysis = none)) ∧
    (∀ (db : DB) (fs : FS) (sid : Nat) (uid : Int) (e : String),
      getComprehensiveResults db fs sid uid = .error e →
      e = "Session not found" ∧
      (db.sessions.filter (fun s => s.id == sid && s.user_id == uid)).head? = none) := by
  refine ⟨?_, ?_, ?_⟩
  · intro db fs sid uid h
    unfold getComprehensiveResults
    rw [h]
  · intro db fs sid uid s h
    unfold getComprehensiveResults
    rw [h]
    refine ⟨_, rfl, ?_, ?_⟩
    · intro hrec
      rw [hrec]
      exact ⟨rfl, rfl⟩
    · intro r hrec hana
      rw [hrec]
      simp [hana]
  · intro db fs sid uid e h
    unfold getComprehensiveResults at h
    cases hs : (db.sessions.filter (fun s => s.id == sid && s.user_id == uid)).head? with
    | none =>
        rw [hs] at h
        injection h with he
        exact ⟨he.symm, rfl⟩
    | some s =>
        rw [hs] at h
        cases h

/-- Claim C6 witness: with `exDB` (one session of user 7, no recording, no
analysis) the aggregation returns a payload with absent markers, and with an
unknown user it fails with `"Session not found"`. -/
theorem claim_C6_aggregator_partial_data_witness :
    (∃ p : ComprehensivePayload,
      getComprehensiveResults exDB exFS 1 7 = .ok p ∧
      p.video_recording =
        { recordingExists := false, duration := none, file_size := none,
          processing_status := none, download_available := none } ∧
      p.video_analysis = none) ∧
    getComprehensiveResults exDB exFS 1 8 = .error "Session not found" := by
  constructor
  · obtain ⟨p, hp, habs, _⟩ :=
      claim_C6_aggregator_partial_data.2.1 exDB exFS 1 7 _ rfl
    obtain ⟨h1, h2⟩ := habs rfl
    exact ⟨p, hp, h1, h2⟩
  · exact claim_C6_aggregator_partial_data.1 exDB exFS 1 8 rfl

/-! ### Claim C1 -/

/-- Claim C1 counterexample: the enhanced api submit endpoint commits the
analysis row one commit before flipping the recording's status, so its third
committed state holds a recording whose `processing_status` is `"pending"`
together with exactly one analysis row keyed to it — violating the claimed
"result row iff completed" invariant. -/
theorem claim_C1_counterexample :
    ∃ st : EDB,
      ((enhancedApiSubmitCommits exEDB 1 [] exMockData 5).1)[2]? = some st ∧
      (∃ r ∈ st.recordings,
        r.processing_status = "pending" ∧ enhResultCount st r.id = 1) ∧
      ¬ invariantEnh st := by
  refine ⟨_, rfl, by decide, by decide⟩

/-- Setting a recording's status to anything other than `"completed"`
preserves the base invariant, provided the recording has no result row. -/
theorem invariantBase_setStatus_of_ne (db : DB) (rid : Nat) (st : String)
    (hst : st ≠ "completed") (hc0 : resultCount db rid = 0)
    (hinv : invariantBase db) : invariantBase (setRecordingStatus db rid st) := by
  intro r1 hr1
  obtain ⟨x, hx, hxeq⟩ := mem_recordings_setRecordingStatus.1 hr1
  by_cases hxid : x.id == rid
  · rw [if_pos hxid] at hxeq
    subst hxeq
    have hxid2 : x.id = rid := by simpa using hxid
    have hcx : resultCount db x.id = 0 := by rw [hxid2]; exact hc0
    exact ⟨⟨fun hne => absurd hcx hne, fun hcomp => absurd hcomp hst⟩,
           fun hcomp => absurd hcomp hst⟩
  · rw [if_neg hxid] at hxeq
    subst hxeq
    exact hinv x hx

/-- Flipping a recording to `"completed"` in the same commit that inserts its
single result row preserves the base invariant. -/
theorem invariantBase_complete_with_row (db : DB) (rid : Nat)
    (row : VideoAnalysisResultRow) (n : Nat)
    (hrow : row.video_recording_id = rid) (hc0 : resultCount db rid = 0)
    (hinv : invariantBase db) :
    invariantBase { setRecordingStatus db rid "completed" with
                    results := db.results ++ [row], nextResultId := n } := by
  have hcnt : ∀ y : Nat,
      resultCount { setRecordingStatus db rid "completed" with
                    results := db.results ++ [row], nextResultId := n } y =
        resultCount db y + (if rid == y then 1 else 0) := by
    intro y
    simp [resultCount, List.countP_append, List.countP_cons, hrow]
  intro r1 hr1
  obtain ⟨x, hx, hxeq⟩ := mem_recordings_setRecordingStatus.1 hr1
  by_cases hxid : x.id == rid
  · rw [if_pos hxid] at hxeq
    subst hxeq
    have hxid2 : x.id = rid := by simpa using hxid
    have hcc : resultCount { setRecordingStatus db rid "completed" with
        results := db.results ++ [row], nextResultId := n }
        ({ x with processing_status := "completed" } : VideoRecordingRow).id = 1 := by
      rw [hcnt]
      have h1 : resultCount db ({ x with processing_status := "completed" } :
          VideoRecordingRow).id = 0 := by
        show resultCount db x.id = 0
        rw [hxid2]; exact hc0
      rw [h1]
      simp [hxid2]
    exact ⟨⟨fun _ => rfl, fun _ => by rw [hcc]; exact one_ne_zero⟩, fun _ => hcc⟩
  · rw [if_neg hxid] at hxeq
    subst hxeq
    have hxid2 : ¬ x.id = rid := by simpa using hxid
    have hcx : resultCount { setRecordingStatus db rid "completed" with
        results := db.results ++ [row], nextResultId := n } x.id =
        resultCount db x.id := by
      rw [hcnt]
      have : (rid == x.id) = false := by
        simp only [beq_eq_false_iff_ne, ne_eq]
        exact fun h => hxid2 h.symm
      rw [this]
      simp
    rw [hcx]
    exact hinv x hx

/-- The enhanced invariant only depends on the recordings and analyses. -/
theorem invariantEnh_congr (a b : EDB) (h1 : a.recordings = b.recordings)
    (h2 : a.analyses = b.analyses) : invariantEnh a ↔ invariantEnh b := by
  unfold invariantEnh enhResultCount
  rw [h1, h2]

/-- `submit_assessment_responses` touches only sessions, responses and the
response counter; the video side of the state is unchanged. -/
theorem submit_preserves_video_state (edb : EDB) (sid : Nat)
    (rs : List ResponseData) (now : Int) :
    ((submitAssessmentResponses edb sid rs now).1).recordings = edb.recordings ∧
    ((submitAssessmentResponses edb sid rs now).1).analyses = edb.analyses ∧
    ((submitAssessmentResponses edb sid rs now).1).nextRecordingId =
      edb.nextRecordingId := by
  unfold submitAssessmentResponses
  cases h : findEnhSession edb sid <;> simp

/-- Appending a `"completed"` recording with a fresh id together with its
single analysis row preserves the enhanced invariant. -/
theorem invariantEnh_of_append (edb2 base : EDB) (rec : EnhRecording)
    (ana : MockAnalysisRow) (N : Nat)
    (hrecs : edb2.recordings = base.recordings ++ [rec])
    (hanas : edb2.analyses = base.analyses ++ [ana])
    (hN1 : ∀ r ∈ base.recordings, r.id < N)
    (hN2 : ∀ a ∈ base.analyses, a.video_recording_id < N)
    (hinv : invariantEnh base)
    (hrid : rec.id = N) (haid : ana.video_recording_id = N)
    (hst : rec.processing_status = "completed") :
    invariantEnh edb2 := by
  have hcnt : ∀ y : Nat,
      enhResultCount edb2 y =
        enhResultCount base y + (if N == y then 1 else 0) := by
    intro y
    unfold enhResultCount
    rw [hanas, List.countP_append]
    simp [List.countP_cons, haid]
  intro r1 hr1
  rw [hrecs] at hr1
  rcases List.mem_append.1 hr1 with hbase | hnew
  · have hlt : r1.id < N := hN1 r1 hbase
    have hne : (N == r1.id) = false := by
      simp only [beq_eq_false_iff_ne, ne_eq]
      exact fun h => absurd h.symm (Nat.ne_of_lt hlt)
    have hcx : enhResultCount edb2 r1.id = enhResultCount base r1.id := by
      rw [hcnt, hne]
      simp
    rw [hcx]
    exact hinv r1 hbase
  · have hr1rec : r1 = rec := by simpa using hnew
    subst hr1rec
    have hc0 : enhResultCount base r1.id = 0 := by
      unfold enhResultCount
      refine List.countP_eq_zero.2 ?_
      intro a ha
      have := hN2 a ha
      simp only [beq_iff_eq]
      rw [hrid]
      exact Nat.ne_of_lt this
    have hcc : enhResultCount edb2 r1.id = 1 := by
      rw [hcnt, hc0, hrid]
      simp
    exact ⟨⟨fun _ => hst, fun _ => by rw [hcc]; exact one_ne_zero⟩, fun _ => hcc⟩

/-- Claim C1 amended: the "result row iff completed" invariant holds at every
state committed by the background analysis pipeline (started on a pending
recording from an invariant-satisfying state), and at the *final* committed
state of each enhanced submit endpoint; the enhanced endpoints' intermediate
committed states violate it (see the counterexample). -/
theorem claim_C1_amended_invariant_holds :
    (∀ (db : DB) (rid : Nat) (ares : Except String AnalysisData) (now : Int)
       (r : VideoRecordingRow),
      findRecording db rid = some r → r.processing_status = "pending" →
      invariantBase db →
      ∀ s ∈ (processVideoAnalysis db rid ares now).commits, invariantBase s) ∧
    (∀ (edb : EDB) (sid : Nat) (rs : List ResponseData) (data : MockAnalysisData)
       (now : Int) (final : EDB),
      wfEnh edb → invariantEnh edb →
      (enhancedApiSubmitCommits edb sid rs data now).1.getLast? = some final →
      invariantEnh final) ∧
    (∀ (edb : EDB) (sid : Nat) (rs : List ResponseData) (data : MockAnalysisData)
       (now : Int) (final : EDB),
      wfEnh edb → invariantEnh edb →
      (enhancedSubmitCommits edb sid rs data now).1.getLast? = some final →
      invariantEnh final) := by
  refine ⟨?_, ?_, ?_⟩
  · -- background pipeline: every commit keeps the invariant
    intro db rid ares now r h hpend hinv s hs
    obtain ⟨hmem, hid⟩ := findRecording_mem h
    have hfound : (findRecording db rid).isSome = true := by rw [h]; rfl
    have hc0 : resultCount db rid = 0 := by
      by_contra hne
      have h1 := (hinv r hmem).1
      rw [hid] at h1
      have h2 := h1.mp hne
      rw [hpend] at h2
      exact absurd h2 (by decide)
    have hinv1 := invariantBase_setStatus_of_ne db rid "processing" (by decide)
      hc0 hinv
    cases ares with
    | error m =>
        have hcommits : (processVideoAnalysis db rid (.error m) now).commits =
          [setRecordingStatus db rid "processing",
           setRecordingStatus (setRecordingStatus db rid "processing") rid
             "failed"] := by
          simp [processVideoAnalysis, hfound]
        rw [hcommits] at hs
        have hinv2 := invariantBase_setStatus_of_ne
          (setRecordingStatus db rid "processing") rid "failed" (by decide)
          hc0 hinv1
        rcases List.mem_cons.1 hs with h1 | hs2
        · subst h1; exact hinv1
        · rcases List.mem_cons.1 hs2 with h2 | h3
          · subst h2; exact hinv2
          · exact absurd h3 (by simp)
    | ok data =>
        have hcommits : (processVideoAnalysis db rid (.ok data) now).commits =
          [setRecordingStatus db rid "processing",
           { setRecordingStatus (setRecordingStatus db rid "processing") rid
               "completed" with
             results := (setRecordingStatus db rid "processing").results ++
               [mkResultRow (setRecordingStatus db rid "processing").nextResultId
                 rid data now]
             nextResultId :=
               (setRecordingStatus db rid "processing").nextResultId + 1 }] := by
          simp [processVideoAnalysis, hfound]
        rw [hcommits] at hs
        rcases List.mem_cons.1 hs with h1 | hs2
        · subst h1; exact hinv1
        · rcases List.mem_cons.1 hs2 with h2 | h3
          · subst h2
            exact invariantBase_complete_with_row
              (setRecordingStatus db rid "processing") rid _ _ rfl hc0 hinv1
          · exact absurd h3 (by simp)
  · -- api-variant submit: final committed state satisfies the invariant
    intro edb sid rs data now final hwf hinv hlast
    unfold enhancedApiSubmitCommits at hlast
    cases hout : (submitAssessmentResponses edb sid rs now).2 with
    | error m => rw [hout] at hlast; simp at hlast
    | ok u =>
        rw [hout] at hlast
        simp only [List.getLast?] at hlast
        have hfin : final = apiState4 (submitAssessmentResponses edb sid rs now).1
            sid data now := by
          simpa using hlast.symm
        subst hfin
        obtain ⟨hrecs1, hanas1, hnext1⟩ := submit_preserves_video_state edb sid rs now
        apply invariantEnh_of_append _
          ((submitAssessmentResponses edb sid rs now).1)
          { apiRecording (submitAssessmentResponses edb sid rs now).1 sid now with
            processing_status := "completed" }
          (generateMockVideoAnalysis
            ((submitAssessmentResponses edb sid rs now).1).nextAnalysisId sid
            ((submitAssessmentResponses edb sid rs now).1).nextRecordingId data now)
          ((submitAssessmentResponses edb sid rs now).1).nextRecordingId
        · -- recordings of the final state
          unfold apiState4 setEnhRecordingStatus apiState3 apiState2
          simp only [List.map_append]
          have hold : List.map
              (fun r => if r.id == (apiRecording
                (submitAssessmentResponses edb sid rs now).1 sid now).id then
                  { r with processing_status := "completed" } else r)
              ((submitAssessmentResponses edb sid rs now).1).recordings =
              ((submitAssessmentResponses edb sid rs now).1).recordings := by
            rw [List.map_congr_left, List.map_id']
            intro a ha
            have halt : a.id < edb.nextRecordingId := by
              rw [← hnext1]
              rw [hrecs1] at ha
              rw [hnext1]
              exact hwf.1 a ha
            have : (a.id == (apiRecording
                (submitAssessmentResponses edb sid rs now).1 sid now).id) = false := by
              simp only [beq_eq_false_iff_ne, ne_eq]
              show ¬ a.id = ((submitAssessmentResponses edb sid rs now).1).nextRecordingId
              rw [hnext1]
              exact Nat.ne_of_lt halt
            rw [this]
            simp
          rw [hold]
          simp
        · -- analyses of the final state
          rfl
        · -- old recording ids are below the fresh id
          intro r2 hr2
          rw [hrecs1] at hr2
          rw [hnext1]
          exact hwf.1 r2 hr2
        · -- old analyses reference ids below the fresh id
          intro a2 ha2
          rw [hanas1] at ha2
          rw [hnext1]
          exact hwf.2 a2 ha2
        · exact (invariantEnh_congr _ edb hrecs1 hanas1).2 hinv
        · rfl
        · rfl
        · rfl
  · -- enhanced_assessments-variant submit: final committed state is invariant
    intro edb sid rs data now final hwf hinv hlast
    unfold enhancedSubmitCommits at hlast
    by_cases hempty : rs.isEmpty
    · rw [if_pos hempty] at hlast; simp at hlast
    · rw [if_neg hempty] at hlast
      cases hout : (submitAssessmentResponses edb sid rs now).2 with
      | error m => rw [hout] at hlast; simp at hlast
      | ok u =>
          rw [hout] at hlast
          simp only [List.getLast?] at hlast
          have hfin : final = enhState3 (submitAssessmentResponses edb sid rs now).1
              sid data now := by
            simpa using hlast.symm
          subst hfin
          obtain ⟨hrecs1, hanas1, hnext1⟩ := submit_preserves_video_state edb sid rs now
          apply invariantEnh_of_append _
            ((submitAssessmentResponses edb sid rs now).1)
            (enhRecording (submitAssessmentResponses edb sid rs now).1 sid now)
            (generateMockVideoAnalysis
              ((submitAssessmentResponses edb sid rs now).1).nextAnalysisId sid
              ((submitAssessmentResponses edb sid rs now).1).nextRecordingId data now)
            ((submitAssessmentResponses edb sid rs now).1).nextRecordingId
          · rfl
          · rfl
          · intro r2 hr2
            rw [hrecs1] at hr2
            rw [hnext1]
            exact hwf.1 r2 hr2
          · intro a2 ha2
            rw [hanas1] at ha2
            rw [hnext1]
            exact hwf.2 a2 ha2
          · exact (invariantEnh_congr _ edb hrecs1 hanas1).2 hinv
          · rfl
          · rfl
          · rfl

/-- Claim C1 amended witness: a concrete background run and the final states
of both concrete enhanced submits satisfy the invariant. -/
theorem claim_C1_amended_invariant_holds_witness :
    invariantBase (setRecordingStatus exDB2 1 "processing") ∧
    invariantEnh (apiState4 (submitAssessmentResponses exEDB 1 [] 5).1 1
      exMockData 5) ∧
    invariantEnh (enhState3 (submitAssessmentResponses exEDB 1
      [⟨1, "Comfortable with small groups", 4⟩] 5).1 1 exMockData 5) := by
  refine ⟨?_, ?_, ?_⟩
  · exact claim_C1_amended_invariant_holds.1 exDB2 1 (.ok mockAnalysisData) 9
      exRecording (by decide) (by decide) (by decide) _ (by decide)
  · exact claim_C1_amended_invariant_holds.2.1 exEDB 1 [] exMockData 5 _
      (by decide) (by decide) rfl
  · exact claim_C1_amended_invariant_holds.2.2 exEDB 1
      [⟨1, "Comfortable with small groups", 4⟩] exMockData 5 _
      (by decide) (by decide) rfl
